import Mathlib

/-! The product HTTP adapter (`api/product/adapter.go`).

A shallow embedding of the five handlers `Get`, `GetAll`, `Create`, `Update`
and `Delete` of the product adapter.  A handler run is a pure function from

* the collaborators it calls (the store service behind `ProductInterface`,
  `utils.Validate`, `primitive.ObjectIDFromHex`), and
* the request as seen through the accessors of `fiber.Ctx`

to an `Outcome`: the ordered list of collaborator calls the handler made and
the response it wrote, if it wrote one.  Tracing spans are not part of the
outcome.
-/

namespace KaksApi

/-! ## Data model -/

/-- A Go `error` value; `Error` is the text its `Error()` method returns. -/
structure GoError where
  Error : String
  deriving DecidableEq, Repr

/-- Go's `errors.New`. -/
def errors.New (text : String) : GoError := ⟨text⟩

/-- Status constant `http.StatusOK`. -/
abbrev http.StatusOK : Nat := 200

/-- Status constant `http.StatusBadRequest`. -/
abbrev http.StatusBadRequest : Nat := 400

/-- Status constant `http.StatusUnprocessableEntity`. -/
abbrev http.StatusUnprocessableEntity : Nat := 422

/-- A `primitive.ObjectID`: the twelve bytes of a document identifier. -/
structure ObjectID where
  bytes : List Nat
  deriving DecidableEq, Repr

/-- Modelled from the spec: the `Product` struct of `domain/product` is declared
outside the sources at hand.  The adapter touches only its `ID` field; all the
other fields (name, price, geolocation, description, creation time) are kept
together in `fields`, of an arbitrary type `F`. -/
structure Product (F : Type) where
  ID : ObjectID
  fields : F
  deriving DecidableEq, Repr

/-- The `product.Filter` literal built in `GetAll`: `Page` and `Limit` are Go
`int`s (filled from `ctx.QueryInt`), the other three are strings (filled from
`ctx.Query`). -/
structure Filter where
  Page : Int
  Limit : Int
  Latitude : String
  Longitude : String
  Keyword : String
  deriving DecidableEq, Repr

/-- Modelled from the spec: the pagination value returned by `FindAll` is
declared outside the sources at hand; the spec gives it the four fields page,
limit, totalItems and totalPages. -/
structure Pagination where
  page : Int
  limit : Int
  totalItems : Int
  totalPages : Int
  deriving DecidableEq, Repr

/-- The methods of `product.ProductInterface` the adapter calls, as the answers
the service gives during one handler run.  A `*product.Product` is an
`Option (Product F)` (`none` is the nil pointer) and a Go `error` result is an
`Option GoError` (`none` is the nil error).  The tracing context argument is
left out.

`Update` is handed the pointer `dataStore`, which the handler reads again after
the call; so besides its error `Update` returns the Product found behind that
pointer when it comes back (the Product it was handed, unless the service wrote
through the pointer).  No handler reads the argument of `Store` again. -/
structure ProductInterface (F : Type) where
  Find : String → Option (Product F) × Option GoError
  FindAll : Filter → List (Product F) × Pagination × Option GoError
  Store : Option (Product F) → Option (Product F) × Option GoError
  Update : Product F → Product F × Option GoError
  DeleteById : String → Option GoError

/-- The `adapter` struct: it holds the store service. -/
structure adapter (F : Type) where
  storeService : ProductInterface F

/-- The constructor `NewStoreHandler`. -/
def NewStoreHandler {F : Type} (storeService : ProductInterface F) : adapter F :=
  ⟨storeService⟩

/-- The two library functions the handlers call besides the service:
`utils.Validate`, which returns the validation message (the empty string when
the payload is valid) and is taken to inspect the payload without changing it,
and `primitive.ObjectIDFromHex`. -/
structure Libs (F : Type) where
  Validate : Option (Product F) → String
  ObjectIDFromHex : String → Except GoError ObjectID

/-- The request, as the accessors of `fiber.Ctx` present it.

`BodyParser` is the result of `ctx.BodyParser(&dataStore)`: an error, or the
value left in the pointer variable `dataStore`.  The handler hands the parser
the address of that variable, so the parser may also reset it to nil (a JSON
body `null` does); `some p` is a body parsed into the Product `p`. -/
structure Ctx (F : Type) where
  Params : String → String
  Query : String → String
  QueryInt : String → Int
  BodyParser : Except GoError (Option (Product F))

/-- A call the handler makes to a collaborator, with its arguments. -/
inductive Call (F : Type) where
  | Validate (data : Option (Product F))
  | slogErrorContext (msg : String) (err : String)
  | Find (id : String)
  | FindAll (filter : Filter)
  | Store (data : Option (Product F))
  | Update (data : Product F)
  | DeleteById (id : String)
  deriving DecidableEq, Repr

/-- The `data` argument of `utils.ResponseWithJSON`. -/
inductive Payload (F : Type) where
  | nil
  | value (p : Product F)
  | pointer (p : Option (Product F))
  | list (ps : List (Product F))
  deriving DecidableEq, Repr

/-- What a handler writes to the client: either the arguments of the one call
`utils.ResponseWithJSON(ctx, status, data, err, pagination...)`, or the
`ctx.Status(status).JSON(fiber.Map{"message": message})` of `Delete`. -/
inductive Response (F : Type) where
  | ResponseWithJSON (status : Nat) (data : Payload F) (err : Option GoError)
      (pagination : Option Pagination)
  | JSON (status : Nat) (message : String)
  deriving DecidableEq, Repr

/-- The status code of a response. -/
def Response.status {F : Type} : Response F → Nat
  | .ResponseWithJSON status _ _ _ => status
  | .JSON status _ => status

/-- The result of running a handler: the collaborator calls it made, in order,
and the response it wrote; `response = none` when the handler stopped on a nil
pointer dereference before writing one. -/
structure Outcome (F : Type) where
  calls : List (Call F)
  response : Option (Response F)
  deriving DecidableEq, Repr

/-- Whether a call is one of the five service operations. -/
def Call.isService {F : Type} : Call F → Bool
  | .Find _ => true
  | .FindAll _ => true
  | .Store _ => true
  | .Update _ => true
  | .DeleteById _ => true
  | _ => false

/-- The service calls of an outcome, in order. -/
def Outcome.serviceCalls {F : Type} (o : Outcome F) : List (Call F) :=
  o.calls.filter Call.isService

/-! ## The handlers -/

/-- Handler `adapter.Get`. On the error path the handler passes `*resp`, which
stops the handler when `resp` is nil. -/
def Get {F : Type} (h : adapter F) (ctx : Ctx F) : Outcome F :=
  let id := ctx.Params "id"
  match h.storeService.Find id with
  | (resp, some err) =>
    match resp with
    | none => ⟨[.Find id], none⟩
    | some p =>
      ⟨[.Find id], some (.ResponseWithJSON http.StatusBadRequest (.value p) (some err) none)⟩
  | (resp, none) =>
    ⟨[.Find id], some (.ResponseWithJSON http.StatusOK (.pointer resp) none none)⟩

/-- The `product.Filter` literal with which `GetAll` starts. -/
def GetAll.filter {F : Type} (ctx : Ctx F) : Filter :=
  { Page := ctx.QueryInt "page"
    Limit := ctx.QueryInt "limit"
    Latitude := ctx.Query "latitude"
    Longitude := ctx.Query "longitude"
    Keyword := ctx.Query "keyword" }

/-- Handler `adapter.GetAll`. -/
def GetAll {F : Type} (h : adapter F) (ctx : Ctx F) : Outcome F :=
  let filter : Filter := GetAll.filter ctx
  match h.storeService.FindAll filter with
  | (_, _, some err) =>
    ⟨[.FindAll filter], some (.ResponseWithJSON http.StatusBadRequest (.list []) (some err) none)⟩
  | (p, pagination, none) =>
    ⟨[.FindAll filter], some (.ResponseWithJSON http.StatusOK (.list p) none (some pagination))⟩

/-- Handler `adapter.Create`. -/
def Create {F : Type} (u : Libs F) (h : adapter F) (ctx : Ctx F) : Outcome F :=
  match ctx.BodyParser with
  | .error err =>
    ⟨[], some (.ResponseWithJSON http.StatusBadRequest .nil (some err) none)⟩
  | .ok dataStore =>
    let errValidation := u.Validate dataStore
    if errValidation ≠ "" then
      ⟨[.Validate dataStore,
        .slogErrorContext "Failed to Validate api:product:Create" errValidation],
       some (.ResponseWithJSON http.StatusUnprocessableEntity .nil
         (some (errors.New errValidation)) none)⟩
    else
      match h.storeService.Store dataStore with
      | (_, some err) =>
        ⟨[.Validate dataStore, .Store dataStore],
         some (.ResponseWithJSON http.StatusBadRequest .nil (some err) none)⟩
      | (resp, none) =>
        ⟨[.Validate dataStore, .Store dataStore],
         some (.ResponseWithJSON http.StatusOK (.pointer resp) none none)⟩

/-- Handler `adapter.Update`. The assignment `dataStore.ID = id` stops the
handler when `dataStore` is nil.  The success response passes `dataStore`, the
pointer the service was handed, so it carries the Product the service left
behind it. -/
def Update {F : Type} (u : Libs F) (h : adapter F) (ctx : Ctx F) : Outcome F :=
  let paramsID := ctx.Params "id"
  match ctx.BodyParser with
  | .error err =>
    ⟨[], some (.ResponseWithJSON http.StatusBadRequest .nil (some err) none)⟩
  | .ok dataStore =>
    let errValidation := u.Validate dataStore
    if errValidation ≠ "" then
      ⟨[.Validate dataStore,
        .slogErrorContext "Failed to Validate api:product:Create" errValidation],
       some (.ResponseWithJSON http.StatusUnprocessableEntity .nil
         (some (errors.New errValidation)) none)⟩
    else
      match u.ObjectIDFromHex paramsID with
      | .error errObjectID =>
        ⟨[.Validate dataStore,
          .slogErrorContext "Failed to Validate api:product:Create" errObjectID.Error],
         some (.ResponseWithJSON http.StatusUnprocessableEntity .nil (some errObjectID) none)⟩
      | .ok id =>
        match dataStore with
        | none => ⟨[.Validate dataStore], none⟩
        | some d =>
          let updated : Product F := { d with ID := id }
          match h.storeService.Update updated with
          | (_, some err) =>
            ⟨[.Validate dataStore, .Update updated],
             some (.ResponseWithJSON http.StatusBadRequest .nil (some err) none)⟩
          | (left, none) =>
            ⟨[.Validate dataStore, .Update updated],
             some (.ResponseWithJSON http.StatusOK (.pointer (some left)) none none)⟩

/-- Handler `adapter.Delete`. -/
def Delete {F : Type} (h : adapter F) (ctx : Ctx F) : Outcome F :=
  let id := ctx.Params "id"
  match h.storeService.DeleteById id with
  | some err => ⟨[.DeleteById id], some (.JSON 500 err.Error)⟩
  | none => ⟨[.DeleteById id], some (.JSON 200 "Deleted successfully")⟩

/-! ## A sample deployment

A small concrete service, validator and identifier parser, over products whose
only other field is a name.  They serve as concrete inputs for the statements
below. -/

/-- The value of one hexadecimal digit. -/
def fromHexChar (c : Char) : Option Nat :=
  if '0' ≤ c ∧ c ≤ '9' then some (c.toNat - '0'.toNat)
  else if 'a' ≤ c ∧ c ≤ 'f' then some (c.toNat - 'a'.toNat + 10)
  else if 'A' ≤ c ∧ c ≤ 'F' then some (c.toNat - 'A'.toNat + 10)
  else none

/-- Decoding of a string of hexadecimal digit pairs into bytes. -/
def hexDecode : List Char → Option (List Nat)
  | [] => some []
  | [_] => none
  | a :: b :: rest =>
    match fromHexChar a, fromHexChar b, hexDecode rest with
    | some hi, some lo, some tl => some ((hi * 16 + lo) :: tl)
    | _, _, _ => none

/-- The error `primitive.ErrInvalidHex`. -/
def ErrInvalidHex : GoError := ⟨"the provided hex string is not a valid ObjectID"⟩

/-- A sample identifier parser: a string of 24 bytes that are hexadecimal digits
is its twelve bytes, every other string is answered with `ErrInvalidHex`. -/
def sampleObjectIDFromHex (s : String) : Except GoError ObjectID :=
  if s.utf8ByteSize ≠ 24 then .error ErrInvalidHex
  else
    match hexDecode s.data with
    | none => .error ErrInvalidHex
    | some bs => .ok ⟨bs⟩

/-- A sample validator: the payload must be present and its name non-empty. -/
def sampleValidate (data : Option (Product String)) : String :=
  match data with
  | none => "Product is required"
  | some p => if p.fields = "" then "Name is a required field" else ""

/-- The sample libraries. -/
def sampleLibs : Libs String := ⟨sampleValidate, sampleObjectIDFromHex⟩

/-- The identifier of the one product the sample store holds. -/
def chairID : ObjectID := ⟨[101, 240, 194, 164, 183, 225, 211, 244, 165, 182, 199, 216]⟩

/-- The one product the sample store holds. -/
def chair : Product String := ⟨chairID, "Chair"⟩

/-- The error with which the sample store answers an unknown identifier. -/
def ErrNoDocuments : GoError := ⟨"mongo: no documents in result"⟩

/-- A sample service over a store holding the one product `chair`: lookups,
updates and deletions of any other identifier fail with `ErrNoDocuments` (a
failed `Find` returns a nil product, as is customary in Go); the listing has
the chair on page 1 and nothing on later pages, with the true totals. -/
def sampleService : ProductInterface String where
  Find := fun id =>
    if id = "65f0c2a4b7e1d3f4a5b6c7d8" then (some chair, none) else (none, some ErrNoDocuments)
  FindAll := fun f =>
    if f.Limit ≤ 0 then ([], ⟨f.Page, f.Limit, 0, 0⟩, some ⟨"invalid filter"⟩)
    else if f.Page = 1 then ([chair], ⟨f.Page, f.Limit, 1, 1⟩, none)
    else ([], ⟨f.Page, f.Limit, 1, 1⟩, none)
  Store := fun data => (data, none)
  Update := fun p => if p.ID = chairID then (p, none) else (p, some ErrNoDocuments)
  DeleteById := fun id =>
    if id = "65f0c2a4b7e1d3f4a5b6c7d8" then none else some ErrNoDocuments

/-- The sample handler. -/
def sampleHandler : adapter String := NewStoreHandler sampleService

/-- A sample service like `sampleService`, except that its `Update` stamps the
record it saves and writes the stamped name back through the pointer it was
handed. -/
def stampingService : ProductInterface String :=
  { sampleService with
    Update := fun p =>
      if p.ID = chairID then (⟨p.ID, p.fields ++ " (saved)"⟩, none)
      else (p, some ErrNoDocuments) }

/-- The handler over the stamping service. -/
def stampingHandler : adapter String := NewStoreHandler stampingService

/-- A sample validator that checks only the name of a payload that is present:
it returns the empty message for a nil payload. -/
def lenientValidate (data : Option (Product String)) : String :=
  match data with
  | none => ""
  | some p => if p.fields = "" then "Name is a required field" else ""

/-- The sample libraries with the lenient validator. -/
def lenientLibs : Libs String := ⟨lenientValidate, sampleObjectIDFromHex⟩

/-- A sample request: path identifier `id`, query parameters `page` and `limit`
as `ctx.QueryInt` reads them (0 stands for a missing parameter), no other query
parameter, and `body` as the outcome of parsing the body. -/
def sampleCtx (id : String) (page limit : Int)
    (body : Except GoError (Option (Product String))) : Ctx String where
  Params := fun key => if key = "id" then id else ""
  Query := fun _ => ""
  QueryInt := fun key => if key = "page" then page else if key = "limit" then limit else 0
  BodyParser := body

/-- The error of a body that is not well-formed JSON. -/
def ErrBadBody : GoError := ⟨"unexpected end of JSON input"⟩

/-- The zero identifier `primitive.NilObjectID`, which a body without an
identifier parses to. -/
def NilObjectID : ObjectID := ⟨List.replicate 12 0⟩

/-- A parsed payload that passes the sample validation. -/
def stool : Product String := ⟨NilObjectID, "Stool"⟩

/-- A parsed payload that fails the sample validation: its name is empty. -/
def nameless : Product String := ⟨NilObjectID, ""⟩

/-- The hexadecimal form of `chairID`. -/
def chairHex : String := "65f0c2a4b7e1d3f4a5b6c7d8"

/-- A parsed payload that names some other identifier than the one in the path. -/
def armchair : Product String := ⟨⟨[1, 2, 3, 4, 5, 6, 7, 8, 9, 10, 11, 12]⟩, "Armchair"⟩

/-- The outcome of parsing the JSON body `null`: no error, and `dataStore` reset
to nil. -/
def nullBody : Except GoError (Option (Product String)) := .ok none

/-- The body of a request that has none (a GET or DELETE request). -/
def noBody : Except GoError (Option (Product String)) := .error ⟨"Unprocessable Entity"⟩

/-! ## Input checks of `Create` and `Update` -/

/-- C1: when the body of a Create or Update request parses but `utils.Validate`
returns a non-empty message, the handler answers 422 with that message as the
error and calls no service operation. -/
theorem validation_failure_is_422 {F : Type} (u : Libs F) (h : adapter F) (ctx : Ctx F)
    (dataStore : Option (Product F))
    (hparse : ctx.BodyParser = .ok dataStore) (hval : u.Validate dataStore ≠ "") :
    ((Create u h ctx).response =
        some (.ResponseWithJSON 422 .nil (some (errors.New (u.Validate dataStore))) none)
      ∧ (Create u h ctx).serviceCalls = [])
    ∧ ((Update u h ctx).response =
        some (.ResponseWithJSON 422 .nil (some (errors.New (u.Validate dataStore))) none)
      ∧ (Update u h ctx).serviceCalls = []) := by
  simp [Create, Update, hparse, hval, Outcome.serviceCalls, Call.isService]

/-- C1 at a sample request: a payload with an empty name. -/
theorem validation_failure_is_422_witness :
    (sampleCtx chairHex 0 0 (.ok (some nameless))).BodyParser = .ok (some nameless)
    ∧ sampleLibs.Validate (some nameless) ≠ ""
    ∧ (Create sampleLibs sampleHandler (sampleCtx chairHex 0 0 (.ok (some nameless)))).response =
        some (.ResponseWithJSON 422 .nil (some (errors.New "Name is a required field")) none)
    ∧ (Update sampleLibs sampleHandler (sampleCtx chairHex 0 0 (.ok (some nameless)))).serviceCalls
        = [] :=
  have key := validation_failure_is_422 sampleLibs sampleHandler
    (sampleCtx chairHex 0 0 (.ok (some nameless))) (some nameless) rfl (by decide)
  ⟨rfl, by decide, key.1.1, key.2.2⟩

/-- C2 fails on the code at a malformed path identifier: the sample Update
request whose body parses and validates and whose path identifier `xyz` is not
an ObjectID is answered with status 422, not with the 400 of a malformed
identifier. -/
theorem update_bad_id_not_400 :
    (sampleCtx "xyz" 0 0 (.ok (some stool))).BodyParser = .ok (some stool)
    ∧ sampleLibs.Validate (some stool) = ""
    ∧ sampleLibs.ObjectIDFromHex ((sampleCtx "xyz" 0 0 (.ok (some stool))).Params "id")
        = .error ErrInvalidHex
    ∧ (Update sampleLibs sampleHandler (sampleCtx "xyz" 0 0 (.ok (some stool)))).response
        = some (.ResponseWithJSON 422 .nil (some ErrInvalidHex) none)
    ∧ ¬ ∃ r, (Update sampleLibs sampleHandler (sampleCtx "xyz" 0 0 (.ok (some stool)))).response
        = some r ∧ r.status = 400 := by
  refine ⟨rfl, rfl, rfl, rfl, ?_⟩
  rintro ⟨r, hr, hs⟩
  have h422 : (Update sampleLibs sampleHandler (sampleCtx "xyz" 0 0 (.ok (some stool)))).response
      = some (.ResponseWithJSON 422 .nil (some ErrInvalidHex) none) := rfl
  rw [h422] at hr
  cases hr
  simp [Response.status] at hs

/-- What `Update` does with a path identifier that `ObjectIDFromHex` rejects,
when the body parses and validates: it answers 422
(`http.StatusUnprocessableEntity`) with the parse error and does not call the
service. -/
theorem update_bad_id_is_422 {F : Type} (u : Libs F) (h : adapter F) (ctx : Ctx F)
    (dataStore : Option (Product F)) (errObjectID : GoError)
    (hparse : ctx.BodyParser = .ok dataStore) (hval : u.Validate dataStore = "")
    (hid : u.ObjectIDFromHex (ctx.Params "id") = .error errObjectID) :
    (Update u h ctx).response
        = some (.ResponseWithJSON http.StatusUnprocessableEntity .nil (some errObjectID) none)
    ∧ (Update u h ctx).serviceCalls = [] := by
  simp [Update, hparse, hval, hid, Outcome.serviceCalls, Call.isService]

/-- The rejected identifier at the sample request with path identifier `xyz`. -/
theorem update_bad_id_is_422_witness :
    (Update sampleLibs sampleHandler (sampleCtx "xyz" 0 0 (.ok (some stool)))).response
        = some (.ResponseWithJSON 422 .nil (some ErrInvalidHex) none)
    ∧ (Update sampleLibs sampleHandler (sampleCtx "xyz" 0 0 (.ok (some stool)))).serviceCalls
        = [] :=
  update_bad_id_is_422 sampleLibs sampleHandler (sampleCtx "xyz" 0 0 (.ok (some stool)))
    (some stool) ErrInvalidHex rfl rfl rfl

/-- C3: when `BodyParser` returns an error, Create and Update answer 400 with
that error and call nothing: neither `utils.Validate` nor the service. -/
theorem parse_failure_is_400 {F : Type} (u : Libs F) (h : adapter F) (ctx : Ctx F)
    (err : GoError) (hparse : ctx.BodyParser = .error err) :
    Create u h ctx = ⟨[], some (.ResponseWithJSON 400 .nil (some err) none)⟩
    ∧ Update u h ctx = ⟨[], some (.ResponseWithJSON 400 .nil (some err) none)⟩ := by
  simp [Create, Update, hparse]

/-- C3 at a sample request with a truncated body. -/
theorem parse_failure_is_400_witness :
    Create sampleLibs sampleHandler (sampleCtx chairHex 0 0 (.error ErrBadBody))
        = ⟨[], some (.ResponseWithJSON 400 .nil (some ErrBadBody) none)⟩
    ∧ Update sampleLibs sampleHandler (sampleCtx chairHex 0 0 (.error ErrBadBody))
        = ⟨[], some (.ResponseWithJSON 400 .nil (some ErrBadBody) none)⟩ :=
  parse_failure_is_400 sampleLibs sampleHandler (sampleCtx chairHex 0 0 (.error ErrBadBody))
    ErrBadBody rfl

/-! ## Service errors -/

/-- Every service error that reaches a response is reported: `GetAll`, `Create`
and `Update` answer 400 with the error, `Delete` answers 500 with its text, and
`Get` answers 400 with the error when `Find` returned a product with it. -/
theorem service_error_reported {F : Type} (u : Libs F) (h : adapter F) (ctx : Ctx F)
    (err : GoError) :
    (∀ p, h.storeService.Find (ctx.Params "id") = (some p, some err) →
      (Get h ctx).response = some (.ResponseWithJSON 400 (.value p) (some err) none))
    ∧ (∀ items pg, h.storeService.FindAll (GetAll.filter ctx) = (items, pg, some err) →
      (GetAll h ctx).response = some (.ResponseWithJSON 400 (.list []) (some err) none))
    ∧ (∀ d resp, ctx.BodyParser = .ok d → u.Validate d = "" →
      h.storeService.Store d = (resp, some err) →
      (Create u h ctx).response = some (.ResponseWithJSON 400 .nil (some err) none))
    ∧ (∀ d id left, ctx.BodyParser = .ok (some d) → u.Validate (some d) = "" →
      u.ObjectIDFromHex (ctx.Params "id") = .ok id →
      h.storeService.Update { d with ID := id } = (left, some err) →
      (Update u h ctx).response = some (.ResponseWithJSON 400 .nil (some err) none))
    ∧ (h.storeService.DeleteById (ctx.Params "id") = some err →
      (Delete h ctx).response = some (.JSON 500 err.Error)) := by
  refine ⟨?_, ?_, ?_, ?_, ?_⟩
  · intro p hf
    simp [Get, hf]
  · intro items pg hf
    simp [GetAll, hf]
  · intro d resp hp hv hs
    simp [Create, hp, hv, hs]
  · intro d id left hp hv hi hu
    simp [Update, hp, hv, hi, hu]
  · intro hd
    simp [Delete, hd]

/-- A response with status 200 is written only when the handler called its
service operation and the operation returned no error. -/
theorem ok_only_without_service_error {F : Type} (u : Libs F) (h : adapter F) (ctx : Ctx F)
    (r : Response F) (hs : r.status = 200) :
    ((Get h ctx).response = some r → (h.storeService.Find (ctx.Params "id")).2 = none)
    ∧ ((GetAll h ctx).response = some r →
        (h.storeService.FindAll (GetAll.filter ctx)).2.2 = none)
    ∧ ((Create u h ctx).response = some r →
        ∃ d, ctx.BodyParser = .ok d ∧ (h.storeService.Store d).2 = none)
    ∧ ((Update u h ctx).response = some r →
        ∃ d id, ctx.BodyParser = .ok (some d) ∧ u.ObjectIDFromHex (ctx.Params "id") = .ok id
          ∧ (h.storeService.Update { d with ID := id }).2 = none)
    ∧ ((Delete h ctx).response = some r →
        h.storeService.DeleteById (ctx.Params "id") = none) := by
  refine ⟨?_, ?_, ?_, ?_, ?_⟩
  · rcases hf : h.storeService.Find (ctx.Params "id") with ⟨_ | p, _ | e⟩ <;>
      (simp [Get, hf]; try (rintro rfl; simp [Response.status] at hs))
  · rcases hf : h.storeService.FindAll (GetAll.filter ctx) with ⟨items, pg, _ | e⟩ <;>
      (simp [GetAll, hf]; try (rintro rfl; simp [Response.status] at hs))
  · cases hp : ctx.BodyParser with
    | error e =>
      simp [Create, hp]; rintro rfl; simp [Response.status] at hs
    | ok d =>
      by_cases hv : u.Validate d = ""
      · rcases hst : h.storeService.Store d with ⟨resp, _ | e⟩ <;>
          (simp [Create, hp, hv, hst]; try (rintro rfl; simp [Response.status] at hs))
      · simp [Create, hp, hv]; rintro rfl; simp [Response.status] at hs
  · cases hp : ctx.BodyParser with
    | error e =>
      simp [Update, hp]; rintro rfl; simp [Response.status] at hs
    | ok d =>
      by_cases hv : u.Validate d = ""
      · cases hi : u.ObjectIDFromHex (ctx.Params "id") with
        | error e =>
          simp [Update, hp, hv, hi]; rintro rfl; simp [Response.status] at hs
        | ok id =>
          cases d with
          | none => simp [Update, hp, hv, hi]
          | some d =>
            rcases hu : h.storeService.Update { d with ID := id } with ⟨left, _ | e⟩ <;>
              (simp [Update, hp, hv, hi, hu]; try (rintro rfl; simp [Response.status] at hs))
      · simp [Update, hp, hv]; rintro rfl; simp [Response.status] at hs
  · cases hd : h.storeService.DeleteById (ctx.Params "id") <;>
      (simp [Delete, hd]; try (rintro rfl; simp [Response.status] at hs))

/-- C4 fails on the code at a `Find` that returns a nil product with its error:
for the unknown identifier `xyz` the sample service returns
`(nil, ErrNoDocuments)`, and `Get` calls `Find` once and then stops on `*resp`
without writing any response, so the error does not reach the client. -/
theorem get_loses_error_of_nil_product :
    sampleHandler.storeService.Find ((sampleCtx "xyz" 0 0 noBody).Params "id")
        = (none, some ErrNoDocuments)
    ∧ Get sampleHandler (sampleCtx "xyz" 0 0 noBody) = ⟨[.Find "xyz"], none⟩ :=
  ⟨rfl, rfl⟩

/-! ## `Update` and the addressed identity -/

/-- C5 as stated fails, at two sample requests whose body parses without error
and validates and whose path identifier parses to `chairID`.  For the JSON body
`null` under the lenient validator, `Update` stops at `dataStore.ID = id`: no
Product is handed to the service and no response is written.  And under the
stamping service, which is handed the Product with `ID = chairID` and the name
of the body and succeeds, the 200 response carries the stamped Product the
service left behind the pointer, not the Product that was handed over. -/
theorem update_response_not_the_handed_product :
    ((sampleCtx chairHex 0 0 nullBody).BodyParser = .ok none
      ∧ lenientLibs.Validate none = ""
      ∧ lenientLibs.ObjectIDFromHex ((sampleCtx chairHex 0 0 nullBody).Params "id")
          = .ok chairID
      ∧ Update lenientLibs sampleHandler (sampleCtx chairHex 0 0 nullBody)
          = ⟨[.Validate none], none⟩)
    ∧ ((sampleCtx chairHex 0 0 (.ok (some armchair))).BodyParser = .ok (some armchair)
      ∧ sampleLibs.Validate (some armchair) = ""
      ∧ sampleLibs.ObjectIDFromHex ((sampleCtx chairHex 0 0 (.ok (some armchair))).Params "id")
          = .ok chairID
      ∧ Update sampleLibs stampingHandler (sampleCtx chairHex 0 0 (.ok (some armchair)))
          = ⟨[.Validate (some armchair), .Update ⟨chairID, "Armchair"⟩],
             some (.ResponseWithJSON 200 (.pointer (some ⟨chairID, "Armchair (saved)"⟩))
               none none)⟩
      ∧ (⟨chairID, "Armchair (saved)"⟩ : Product String) ≠ ⟨chairID, "Armchair"⟩) := by
  refine ⟨⟨rfl, rfl, rfl, rfl⟩, rfl, rfl, rfl, rfl, ?_⟩
  decide

/-- C5, amended: when the body of an Update request parses into a Product `d`
that validates and the path identifier parses to `X`, the service `Update` is
handed, once, the Product with `ID = X` and with the other fields of `d`,
whatever `d.ID` was; and when the service succeeds, the 200 response carries
the Product the service left behind that pointer, which is the Product handed
over whenever the service did not write through it. -/
theorem update_hands_addressed_identity {F : Type} (u : Libs F) (h : adapter F)
    (ctx : Ctx F) (d : Product F) (X : ObjectID)
    (hparse : ctx.BodyParser = .ok (some d)) (hval : u.Validate (some d) = "")
    (hid : u.ObjectIDFromHex (ctx.Params "id") = .ok X) :
    (Update u h ctx).serviceCalls = [.Update ⟨X, d.fields⟩]
    ∧ (∀ left, h.storeService.Update ⟨X, d.fields⟩ = (left, none) →
        (Update u h ctx).response
          = some (.ResponseWithJSON 200 (.pointer (some left)) none none))
    ∧ (h.storeService.Update ⟨X, d.fields⟩ = (⟨X, d.fields⟩, none) →
        (Update u h ctx).response
          = some (.ResponseWithJSON 200 (.pointer (some ⟨X, d.fields⟩)) none none)) := by
  refine ⟨?_, ?_, ?_⟩
  · rcases hU : h.storeService.Update ⟨X, d.fields⟩ with ⟨left, _ | e⟩ <;>
      simp [Update, hparse, hval, hid, hU, Outcome.serviceCalls, Call.isService]
  · intro left hU
    simp [Update, hparse, hval, hid, hU]
  · intro hU
    simp [Update, hparse, hval, hid, hU]

/-- C5, amended, at sample requests whose body names another identifier than
the path: the sample service, which leaves the Product as handed, and the
stamping service, which does not. -/
theorem update_hands_addressed_identity_witness :
    armchair.ID ≠ chairID
    ∧ (Update sampleLibs sampleHandler (sampleCtx chairHex 0 0 (.ok (some armchair)))).serviceCalls
        = [.Update ⟨chairID, "Armchair"⟩]
    ∧ (Update sampleLibs sampleHandler (sampleCtx chairHex 0 0 (.ok (some armchair)))).response
        = some (.ResponseWithJSON 200 (.pointer (some ⟨chairID, "Armchair"⟩)) none none)
    ∧ (Update sampleLibs stampingHandler (sampleCtx chairHex 0 0 (.ok (some armchair)))).response
        = some (.ResponseWithJSON 200 (.pointer (some ⟨chairID, "Armchair (saved)"⟩)) none none) :=
  have key := update_hands_addressed_identity sampleLibs sampleHandler
    (sampleCtx chairHex 0 0 (.ok (some armchair))) armchair chairID rfl rfl rfl
  have key2 := update_hands_addressed_identity sampleLibs stampingHandler
    (sampleCtx chairHex 0 0 (.ok (some armchair))) armchair chairID rfl rfl rfl
  ⟨by decide, key.1, key.2.2 rfl, key2.2.1 ⟨chairID, "Armchair (saved)"⟩ rfl⟩

/-! ## The listing -/

/-- C6: when `FindAll` succeeds with `(items, pagination)`, `GetAll` answers 200
with exactly those items, in order, and exactly that pagination; when `FindAll`
fails, it answers 400 with an empty product list, the error and no pagination. -/
theorem getall_returns_listing_unaltered {F : Type} (h : adapter F) (ctx : Ctx F) :
    (∀ items pagination,
      h.storeService.FindAll (GetAll.filter ctx) = (items, pagination, none) →
      (GetAll h ctx).response
        = some (.ResponseWithJSON 200 (.list items) none (some pagination)))
    ∧ (∀ items pagination err,
      h.storeService.FindAll (GetAll.filter ctx) = (items, pagination, some err) →
      (GetAll h ctx).response
        = some (.ResponseWithJSON 400 (.list []) (some err) none)) := by
  constructor
  · intro items pagination hf
    simp [GetAll, hf]
  · intro items pagination err hf
    simp [GetAll, hf]

/-- C6 at sample requests: page 5 of a one-item store gives no items with the
true totals, and a listing the service refuses gives the 400 answer. -/
theorem getall_returns_listing_unaltered_witness :
    (GetAll sampleHandler (sampleCtx "" 5 10 noBody)).response
        = some (.ResponseWithJSON 200 (.list []) none (some ⟨5, 10, 1, 1⟩))
    ∧ (GetAll sampleHandler (sampleCtx "" 1 0 noBody)).response
        = some (.ResponseWithJSON 400 (.list []) (some ⟨"invalid filter"⟩) none) :=
  ⟨(getall_returns_listing_unaltered sampleHandler (sampleCtx "" 5 10 noBody)).1
      [] ⟨5, 10, 1, 1⟩ rfl,
   (getall_returns_listing_unaltered sampleHandler (sampleCtx "" 1 0 noBody)).2
      [] ⟨1, 0, 0, 0⟩ ⟨"invalid filter"⟩ rfl⟩

/-- C7 as stated fails: for a List request without `page` and `limit` (which
`ctx.QueryInt` reads as 0) the Filter handed to `FindAll` has page 0 and limit
0, and for `page=-3&limit=1000` it has page -3 and limit 1000. -/
theorem getall_filter_not_normalized :
    (GetAll sampleHandler (sampleCtx "" 0 0 noBody)).serviceCalls
        = [.FindAll ⟨0, 0, "", "", ""⟩]
    ∧ (GetAll sampleHandler (sampleCtx "" (-3) 1000 noBody)).serviceCalls
        = [.FindAll ⟨-3, 1000, "", "", ""⟩]
    ∧ ¬ (1 ≤ (GetAll.filter (sampleCtx "" 0 0 noBody)).Page)
    ∧ ¬ (1 ≤ (GetAll.filter (sampleCtx "" 0 0 noBody)).Limit)
    ∧ ¬ ((GetAll.filter (sampleCtx "" (-3) 1000 noBody)).Limit ≤ 100) := by
  refine ⟨rfl, rfl, ?_, ?_, ?_⟩ <;> decide

/-- C7, amended: the Filter that `GetAll` builds and hands to `FindAll` carries
page and limit exactly as `ctx.QueryInt` returns them and the other three
parameters exactly as `ctx.Query` returns them; so it has page ≥ 1 and
1 ≤ limit ≤ 100 exactly when the request values have. -/
theorem getall_hands_raw_filter {F : Type} (h : adapter F) (ctx : Ctx F) :
    (GetAll h ctx).serviceCalls = [.FindAll (GetAll.filter ctx)]
    ∧ (GetAll.filter ctx).Page = ctx.QueryInt "page"
    ∧ (GetAll.filter ctx).Limit = ctx.QueryInt "limit"
    ∧ (GetAll.filter ctx).Latitude = ctx.Query "latitude"
    ∧ (GetAll.filter ctx).Longitude = ctx.Query "longitude"
    ∧ (GetAll.filter ctx).Keyword = ctx.Query "keyword"
    ∧ ((1 ≤ (GetAll.filter ctx).Page ∧ 1 ≤ (GetAll.filter ctx).Limit
          ∧ (GetAll.filter ctx).Limit ≤ 100)
        ↔ (1 ≤ ctx.QueryInt "page" ∧ 1 ≤ ctx.QueryInt "limit" ∧ ctx.QueryInt "limit" ≤ 100)) := by
  refine ⟨?_, rfl, rfl, rfl, rfl, rfl, Iff.rfl⟩
  rcases hf : h.storeService.FindAll (GetAll.filter ctx) with ⟨items, pg, _ | err⟩ <;>
    simp [GetAll, hf, Outcome.serviceCalls, Call.isService]

/-! ## No retry -/

/-- Every handler calls its own service operation at most once and no other
service operation: `Get`, `GetAll` and `Delete`, which check nothing first, make
exactly their one call; `Create` makes no service call or one `Store`, and
exactly the one `Store` when the body parses and validates; `Update` makes no
service call or one `Update`, and exactly the one `Update` when the body parses
into a Product, validates, and the path identifier parses. -/
theorem service_called_at_most_once {F : Type} (u : Libs F) (h : adapter F) (ctx : Ctx F) :
    (Get h ctx).serviceCalls = [.Find (ctx.Params "id")]
    ∧ (GetAll h ctx).serviceCalls = [.FindAll (GetAll.filter ctx)]
    ∧ (Delete h ctx).serviceCalls = [.DeleteById (ctx.Params "id")]
    ∧ ((Create u h ctx).serviceCalls = [] ∨ ∃ d, (Create u h ctx).serviceCalls = [.Store d])
    ∧ (∀ d, ctx.BodyParser = .ok d → u.Validate d = "" →
        (Create u h ctx).serviceCalls = [.Store d])
    ∧ ((Update u h ctx).serviceCalls = [] ∨ ∃ p, (Update u h ctx).serviceCalls = [.Update p])
    ∧ (∀ d id, ctx.BodyParser = .ok (some d) → u.Validate (some d) = "" →
        u.ObjectIDFromHex (ctx.Params "id") = .ok id →
        (Update u h ctx).serviceCalls = [.Update { d with ID := id }]) := by
  refine ⟨?_, ?_, ?_, ?_, ?_, ?_, ?_⟩
  · rcases hf : h.storeService.Find (ctx.Params "id") with ⟨_ | p, _ | e⟩ <;>
      simp [Get, hf, Outcome.serviceCalls, Call.isService]
  · rcases hf : h.storeService.FindAll (GetAll.filter ctx) with ⟨items, pg, _ | e⟩ <;>
      simp [GetAll, hf, Outcome.serviceCalls, Call.isService]
  · cases hd : h.storeService.DeleteById (ctx.Params "id") <;>
      simp [Delete, hd, Outcome.serviceCalls, Call.isService]
  · cases hp : ctx.BodyParser with
    | error e => simp [Create, hp, Outcome.serviceCalls]
    | ok d =>
      by_cases hv : u.Validate d = ""
      · rcases hs : h.storeService.Store d with ⟨resp, _ | e⟩ <;>
          simp [Create, hp, hv, hs, Outcome.serviceCalls, Call.isService]
      · simp [Create, hp, hv, Outcome.serviceCalls, Call.isService]
  · intro d hp hv
    rcases hs : h.storeService.Store d with ⟨resp, _ | e⟩ <;>
      simp [Create, hp, hv, hs, Outcome.serviceCalls, Call.isService]
  · cases hp : ctx.BodyParser with
    | error e => simp [Update, hp, Outcome.serviceCalls]
    | ok d =>
      by_cases hv : u.Validate d = ""
      · cases hi : u.ObjectIDFromHex (ctx.Params "id") with
        | error e => simp [Update, hp, hv, hi, Outcome.serviceCalls, Call.isService]
        | ok id =>
          cases d with
          | none => simp [Update, hp, hv, hi, Outcome.serviceCalls, Call.isService]
          | some d =>
            rcases hu : h.storeService.Update { d with ID := id } with ⟨left, _ | e⟩ <;>
              simp [Update, hp, hv, hi, hu, Outcome.serviceCalls, Call.isService]
      · simp [Update, hp, hv, Outcome.serviceCalls, Call.isService]
  · intro d id hp hv hi
    rcases hu : h.storeService.Update { d with ID := id } with ⟨left, _ | e⟩ <;>
      simp [Update, hp, hv, hi, hu, Outcome.serviceCalls, Call.isService]

/-- At sample requests a valid Create and a valid Update each make their one
service call. -/
theorem service_called_at_most_once_witness :
    (Create sampleLibs sampleHandler (sampleCtx "" 0 0 (.ok (some stool)))).serviceCalls
        = [.Store (some stool)]
    ∧ (Update sampleLibs sampleHandler (sampleCtx chairHex 0 0 (.ok (some armchair)))).serviceCalls
        = [.Update ⟨chairID, "Armchair"⟩] :=
  ⟨(service_called_at_most_once sampleLibs sampleHandler
      (sampleCtx "" 0 0 (.ok (some stool)))).2.2.2.2.1 (some stool) rfl rfl,
   (service_called_at_most_once sampleLibs sampleHandler
      (sampleCtx chairHex 0 0 (.ok (some armchair)))).2.2.2.2.2.2 armchair chairID rfl rfl rfl⟩

/-- C8 fails on the code at the JSON body `null`: under the lenient validator
and with the well-formed path identifier of the chair, all three checks of
`Update` pass (the body parses without error, `utils.Validate` returns the
empty message, the identifier parses), and yet `Update` makes no service call
at all: it stops at `dataStore.ID = id`. -/
theorem update_null_body_skips_service :
    (sampleCtx chairHex 0 0 nullBody).BodyParser = .ok none
    ∧ lenientLibs.Validate none = ""
    ∧ lenientLibs.ObjectIDFromHex ((sampleCtx chairHex 0 0 nullBody).Params "id") = .ok chairID
    ∧ (Update lenientLibs sampleHandler (sampleCtx chairHex 0 0 nullBody)).serviceCalls = []
    ∧ (Update lenientLibs sampleHandler (sampleCtx chairHex 0 0 nullBody)).response = none :=
  ⟨rfl, rfl, rfl, rfl, rfl⟩

/-! ## The failure path of `Get` -/

/-- C9: when `Find` returns an error with a non-nil product, `Get` answers 400
with the pointed-to product value and the error; when `Find` returns an error
with a nil product, `Get` writes no response; so `Get` writes a response for
every request exactly when `Find` never returns a nil product with an error. -/
theorem get_responds_iff_find_never_nil_with_error {F : Type} (h : adapter F) :
    (∀ (ctx : Ctx F) p e, h.storeService.Find (ctx.Params "id") = (some p, some e) →
      (Get h ctx).response = some (.ResponseWithJSON 400 (.value p) (some e) none))
    ∧ (∀ (ctx : Ctx F) e, h.storeService.Find (ctx.Params "id") = (none, some e) →
      (Get h ctx).response = none)
    ∧ ((∀ ctx : Ctx F, (Get h ctx).response ≠ none)
        ↔ ∀ id e, h.storeService.Find id ≠ (none, some e)) := by
  refine ⟨?_, ?_, ?_, ?_⟩
  · intro ctx p e hf
    simp [Get, hf]
  · intro ctx e hf
    simp [Get, hf]
  · intro H id e hf
    apply H ⟨fun _ => id, fun _ => "", fun _ => 0, .error e⟩
    simp [Get, hf]
  · intro H ctx
    rcases hf : h.storeService.Find (ctx.Params "id") with ⟨_ | p, _ | e⟩
    · simp [Get, hf]
    · exact absurd hf (H _ e)
    · simp [Get, hf]
    · simp [Get, hf]

/-- C9 at the sample service, whose `Find` returns a nil product with its
error: the request for `xyz` gets no response. -/
theorem get_responds_iff_find_never_nil_with_error_witness :
    (Get sampleHandler (sampleCtx "xyz" 0 0 noBody)).response = none
    ∧ ¬ ∀ ctx : Ctx String, (Get sampleHandler ctx).response ≠ none :=
  ⟨(get_responds_iff_find_never_nil_with_error sampleHandler).2.1
      (sampleCtx "xyz" 0 0 noBody) ErrNoDocuments rfl,
   fun H => (get_responds_iff_find_never_nil_with_error sampleHandler).2.2.1 H
      "xyz" ErrNoDocuments rfl⟩

/-! ## The order of the checks of `Update` -/

/-- C10: `Update` checks body parse, then validation, then the path identifier,
and stops at the first failure.  A request whose body parses, whose payload
fails validation and whose identifier is malformed too gets the 422 validation
answer with the validation message; and two runs of `Update` whose first
failing check is the same, with the same error, write the same response,
whatever the later checks and the service would have said. -/
theorem update_first_failure_decides {F : Type} (u u2 : Libs F) (h h2 : adapter F)
    (ctx ctx2 : Ctx F) :
    (∀ d e, ctx.BodyParser = .ok d → u.Validate d ≠ "" →
        u.ObjectIDFromHex (ctx.Params "id") = .error e →
        (Update u h ctx).response
          = some (.ResponseWithJSON 422 .nil (some (errors.New (u.Validate d))) none))
    ∧ (∀ e, ctx.BodyParser = .error e → ctx2.BodyParser = .error e →
        (Update u h ctx).response = some (.ResponseWithJSON 400 .nil (some e) none)
        ∧ (Update u2 h2 ctx2).response = (Update u h ctx).response)
    ∧ (∀ d d2, ctx.BodyParser = .ok d → ctx2.BodyParser = .ok d2 →
        u.Validate d ≠ "" → u2.Validate d2 = u.Validate d →
        (Update u h ctx).response
          = some (.ResponseWithJSON 422 .nil (some (errors.New (u.Validate d))) none)
        ∧ (Update u2 h2 ctx2).response = (Update u h ctx).response)
    ∧ (∀ d d2 e, ctx.BodyParser = .ok d → ctx2.BodyParser = .ok d2 →
        u.Validate d = "" → u2.Validate d2 = "" →
        u.ObjectIDFromHex (ctx.Params "id") = .error e →
        u2.ObjectIDFromHex (ctx2.Params "id") = .error e →
        (Update u h ctx).response = some (.ResponseWithJSON 422 .nil (some e) none)
        ∧ (Update u2 h2 ctx2).response = (Update u h ctx).response) := by
  refine ⟨?_, ?_, ?_, ?_⟩
  · intro d e hp hv _
    simp [Update, hp, hv]
  · intro e hp hp2
    simp [Update, hp, hp2]
  · intro d d2 hp hp2 hv hv2
    have hv3 : u2.Validate d2 ≠ "" := by rw [hv2]; exact hv
    simp [Update, hp, hp2, hv, hv3, hv2]
  · intro d d2 e hp hp2 hv hv2 hi hi2
    simp [Update, hp, hp2, hv, hv2, hi, hi2]

/-- C10 at a sample request whose payload has no name and whose path identifier
is `xyz`: the answer is the validation failure, the same as for the same payload
under a well-formed identifier. -/
theorem update_first_failure_decides_witness :
    (Update sampleLibs sampleHandler (sampleCtx "xyz" 0 0 (.ok (some nameless)))).response
        = some (.ResponseWithJSON 422 .nil (some (errors.New "Name is a required field")) none)
    ∧ (Update sampleLibs sampleHandler (sampleCtx chairHex 0 0 (.ok (some nameless)))).response
        = (Update sampleLibs sampleHandler (sampleCtx "xyz" 0 0 (.ok (some nameless)))).response :=
  ⟨(update_first_failure_decides sampleLibs sampleLibs sampleHandler sampleHandler
      (sampleCtx "xyz" 0 0 (.ok (some nameless)))
      (sampleCtx chairHex 0 0 (.ok (some nameless)))).1
      (some nameless) ErrInvalidHex rfl (by decide) rfl,
   ((update_first_failure_decides sampleLibs sampleLibs sampleHandler sampleHandler
      (sampleCtx "xyz" 0 0 (.ok (some nameless)))
      (sampleCtx chairHex 0 0 (.ok (some nameless)))).2.2.1
      (some nameless) (some nameless) rfl rfl (by decide) rfl).2⟩

end KaksApi
